import Mathlib

/-!
# Payment-and-entitlement reconciliation core: a shallow embedding

This file embeds, in Lean, the reconciliation core of the `mvs-movie`
backend: the Stripe webhook handler (`apps/payment/views.py`), the payment
and webhook-event models (`apps/payment/models.py`), the entitlement
activation and maintenance tasks (`apps/payment/tasks.py`), and the daily
watch-quota logic (`apps/subscribe/models.py`, `apps/subscribe/utils.py`).

Modelling conventions:
* Database tables become Lean lists of records; a Django `save` by primary
  key becomes a `List.map` that replaces the rows whose key matches, and a
  `create` appends.  `get` / `get_or_create` become `List.find?` with the
  query's predicate.
* Timestamps are `Int` seconds; `timedelta(days=d)` is `d * 86400` seconds
  and `timedelta(hours=h)` is `h * 3600`; `timezone.now().date()` is floor
  division of the timestamp by 86400.  Each operation is invoked at a
  single instant `now`.
* Celery's `task.delay(args)` becomes appending a task descriptor to a
  queue held in the state.
* Monetary amounts are kept in minor units (Stripe's `amount_total`
  cents); the source converts them to a two-place decimal, which no claim
  inspects.
* Stripe signature verification (`construct_webhook_event`) is external
  cryptography; the webhook view takes its result (`Option StripeEvent`)
  as an input, `none` standing for a `ValueError` or
  `SignatureVerificationError` swallowed into `None` by
  `stripe_utils.construct_webhook_event`.
* `WebhookEvent.objects.create` on a duplicate `stripe_event_id` violates
  the model's unique constraint and raises `IntegrityError`; in
  `StripeWebhookView.post` this happens *outside* the `try`, so the
  exception escapes the view (an unhandled-exception 500, not a response
  built by the view).
-/

/-- Payment.STATUS_CHOICES (`apps/payment/models.py`). -/
inductive PaymentStatus
  | pending
  | processing
  | succeeded
  | failed
  | canceled
  | refunded
deriving DecidableEq, Repr

/-- A row of the `Payment` table (`apps/payment/models.py`).  `id` is the
database primary key, `stripe_payment_intent_id` the unique gateway key. -/
structure Payment where
  id : Nat
  userId : Nat
  stripe_payment_intent_id : String
  stripe_checkout_session_id : String
  amount_cents : Int
  currency : String
  status : PaymentStatus
  subscription_months : Nat
  description : String
  createdAt : Int
  completedAt : Option Int
deriving DecidableEq, Repr

/-- A row of the `WebhookEvent` table (`apps/payment/models.py`);
`stripe_event_id` is unique. -/
structure WebhookEvent where
  stripe_event_id : String
  event_type : String
  processed : Bool
  processing_error : String
  createdAt : Int
  processedAt : Option Int
deriving DecidableEq, Repr

/-- A row of the `Subscription` table (`apps/subscribe/models.py`);
one-to-one with the user, so `userId` is the key. -/
structure Subscription where
  userId : Nat
  start_date : Int
  end_date : Int
  is_active : Bool
deriving DecidableEq, Repr

/-- A row of the `DailyWatchLimit` table (`apps/subscribe/models.py`);
unique together on (user, date). -/
structure DailyWatchLimit where
  userId : Nat
  date : Int
  watched_seconds : Nat
deriving DecidableEq, Repr

/-- A Celery task enqueued with `.delay(...)`. -/
inductive QueuedTask
  | processPayment (paymentId : Nat)
  | confirmationEmail (userId : Nat) (paymentId : Nat)
deriving DecidableEq, Repr

/-- The database plus the Celery queue. -/
structure DBState where
  payments : List Payment
  webhookEvents : List WebhookEvent
  subscriptions : List Subscription
  dailyLimits : List DailyWatchLimit
  taskQueue : List QueuedTask
  nextPaymentId : Nat
deriving DecidableEq, Repr

/-- `request.user`: identity plus `is_authenticated`. -/
structure UserRef where
  id : Nat
  is_authenticated : Bool
deriving DecidableEq, Repr

/-- `checkout.session.completed` payload: the session object with the two
metadata entries the handler reads (`user_id`, falsy/absent modelled as
`none`, and `subscription_months` with its default of 1 applied). -/
structure CheckoutSession where
  id : String
  payment_intent : String
  payment_status : String
  amount_total : Int
  currency : String
  metaUserId : Option Nat
  metaSubscriptionMonths : Nat
deriving DecidableEq, Repr

/-- `payment_intent.*` payload: the payment-intent object. -/
structure PaymentIntentObj where
  id : String
deriving DecidableEq, Repr

/-- `charge.refunded` payload: the charge carries its payment-intent id. -/
structure ChargeObj where
  payment_intent : String
deriving DecidableEq, Repr

/-- `event.data.object`, one of the shapes the four handlers access. -/
inductive EventObject
  | checkoutSession (s : CheckoutSession)
  | paymentIntent (o : PaymentIntentObj)
  | charge (c : ChargeObj)
deriving DecidableEq, Repr

/-- A verified Stripe event (`stripe.Event`): id, type tag, payload. -/
structure StripeEvent where
  id : String
  type : String
  data : EventObject
deriving DecidableEq, Repr

/-- The view's HTTP result.  `unhandledError` is an exception escaping the
view function (Django turns it into a 500), as opposed to `serverError`,
the 500 response the view itself builds. -/
inductive HttpResp
  | ok200 (body : String)
  | badRequest (body : String)
  | serverError (body : String)
  | unhandledError (msg : String)
deriving DecidableEq, Repr

/-- Whether a response is the success (HTTP 200) case. -/
def HttpResp.isSuccess : HttpResp → Bool
  | .ok200 _ => true
  | _ => false

/-- `Payment.is_successful` (`models.py:157`). -/
def Payment.is_successful (p : Payment) : Bool :=
  p.status = .succeeded

/-- `Payment.mark_as_succeeded` (`models.py:161`): unconditionally sets
`status = succeeded` and `completed_at = timezone.now()`.  The caller
persists the result with `savePaymentById`. -/
def Payment.mark_as_succeeded (p : Payment) (now : Int) : Payment :=
  { p with status := .succeeded, completedAt := some now }

/-- `Payment.mark_as_failed` (`models.py:168`): unconditionally sets
`status = failed`. -/
def Payment.mark_as_failed (p : Payment) : Payment :=
  { p with status := .failed }

/-- `Subscription.is_expired` (`subscribe/models.py:54`). -/
def Subscription.is_expired (s : Subscription) (now : Int) : Bool :=
  now > s.end_date

/-- `DailyWatchLimit.get_remaining_seconds` (`subscribe/models.py:119`):
`max(0, 3600 - watched_seconds)`. -/
def DailyWatchLimit.get_remaining_seconds (l : DailyWatchLimit) : Int :=
  max 0 (3600 - (l.watched_seconds : Int))

/-- `DailyWatchLimit.is_limit_reached` (`subscribe/models.py:125`). -/
def DailyWatchLimit.is_limit_reached (l : DailyWatchLimit) : Bool :=
  l.watched_seconds ≥ 3600

/-- `DailyWatchLimit.add_watch_time` (`subscribe/models.py:128`): additive
increment, no clamping.  The caller persists the result. -/
def DailyWatchLimit.add_watch_time (l : DailyWatchLimit) (seconds : Nat) :
    DailyWatchLimit :=
  { l with watched_seconds := l.watched_seconds + seconds }

/-- `Payment.objects.get(stripe_payment_intent_id=pi)` /
`.filter(...)`-style lookup by the unique gateway key. -/
def findPaymentByIntent (l : List Payment) (pi : String) : Option Payment :=
  l.find? (fun p => decide (p.stripe_payment_intent_id = pi))

/-- `Payment.objects.get(id=pid)`: lookup by primary key. -/
def findPaymentById (l : List Payment) (pid : Nat) : Option Payment :=
  l.find? (fun p => decide (p.id = pid))

/-- `payment.save(...)`: write the object back to the row with its primary
key. -/
def savePaymentById (l : List Payment) (p : Payment) : List Payment :=
  l.map (fun q => if q.id = p.id then p else q)

/-- Lookup of a `WebhookEvent` row by its unique `stripe_event_id`. -/
def findEventById (l : List WebhookEvent) (eid : String) :
    Option WebhookEvent :=
  l.find? (fun w => decide (w.stripe_event_id = eid))

/-- `Subscription.objects.get_or_create(user=user)`-style lookup (the
subscription is one-to-one with the user). -/
def findSubByUser (l : List Subscription) (uid : Nat) : Option Subscription :=
  l.find? (fun s => decide (s.userId = uid))

/-- `subscription.save(...)`: write back the user's row. -/
def saveSubByUser (l : List Subscription) (s : Subscription) :
    List Subscription :=
  l.map (fun t => if t.userId = s.userId then s else t)

/-- `DailyWatchLimit.objects.get_or_create(user=user, date=today)` lookup
under the (user, date) unique-together key. -/
def findLimitByUserDate (l : List DailyWatchLimit) (uid : Nat) (d : Int) :
    Option DailyWatchLimit :=
  l.find? (fun w => decide (w.userId = uid) && decide (w.date = d))

/-- `limit.save(...)`: write back the (user, date) row. -/
def saveLimitByUserDate (l : List DailyWatchLimit) (w : DailyWatchLimit) :
    List DailyWatchLimit :=
  l.map (fun v => if v.userId = w.userId ∧ v.date = w.date then w else v)

/-- `task.delay(...)`: append to the Celery queue. -/
def enqueueTask (st : DBState) (t : QueuedTask) : DBState :=
  { st with taskQueue := st.taskQueue ++ [t] }

/-- `timezone.now().date()`: the calendar day of a timestamp. -/
def dateOf (t : Int) : Int :=
  Int.fdiv t 86400

/-- `WebhookEvent.objects.create(stripe_event_id=..., event_type=...,
payload=...)` (`views.py:112`): an INSERT that raises `IntegrityError`
when a row with the same `stripe_event_id` already exists (the column is
unique). -/
def createWebhookEvent (st : DBState) (eid etype : String) (now : Int) :
    Except String DBState :=
  if (findEventById st.webhookEvents eid).isSome then
    .error "IntegrityError: duplicate stripe_event_id"
  else
    .ok { st with webhookEvents := st.webhookEvents ++
      [{ stripe_event_id := eid, event_type := etype, processed := false,
         processing_error := "", createdAt := now, processedAt := none }] }

/-- `WebhookEvent.mark_as_processed` (`models.py:236`) applied to the row
with the given event id. -/
def markEventProcessed (st : DBState) (eid : String) (now : Int) : DBState :=
  { st with webhookEvents := st.webhookEvents.map (fun w =>
      if w.stripe_event_id = eid then
        { w with processed := true, processedAt := some now }
      else w) }

/-- `WebhookEvent.mark_as_failed` (`models.py:243`) applied to the row
with the given event id. -/
def markEventFailed (st : DBState) (eid : String) (now : Int)
    (err : String) : DBState :=
  { st with webhookEvents := st.webhookEvents.map (fun w =>
      if w.stripe_event_id = eid then
        { w with processed := true, processedAt := some now,
                 processing_error := err }
      else w) }

/-- `StripeWebhookView._handle_checkout_session_completed`
(`views.py:139-180`).  Mirrors the source: missing/falsy `user_id`
metadata is a silent no-op; `get_or_create` keyed on the session's
payment-intent id, defaults deriving status from `payment_status`
(`paid` gives `succeeded`, anything else `processing`); when the row
already existed, a `paid` session on a not-yet-succeeded record calls
`mark_as_succeeded` (whose save persists only status and completed_at,
so the in-memory checkout-session id assignment is not written), and
every other case sets status to `processing`; finally, if the session is
`paid` and the in-memory object reports success, enqueue
`process_successful_payment.delay(payment.id)`. -/
def handleCheckoutSessionCompleted (st : DBState) (now : Int)
    (obj : EventObject) : Except String DBState :=
  match obj with
  | .checkoutSession s =>
    match s.metaUserId with
    | none => .ok st
    | some uid =>
      let months := s.metaSubscriptionMonths
      let (payment, st1) :=
        match findPaymentByIntent st.payments s.payment_intent with
        | none =>
          let created : Payment :=
            { id := st.nextPaymentId
              userId := uid
              stripe_payment_intent_id := s.payment_intent
              stripe_checkout_session_id := s.id
              amount_cents := s.amount_total
              currency := s.currency.toUpper
              status := if s.payment_status = "paid" then .succeeded
                        else .processing
              subscription_months := months
              description := "VideoHub Premium Subscription - " ++
                toString months ++ " month(s)"
              createdAt := now
              completedAt := none }
          (created,
           { st with payments := st.payments ++ [created],
                     nextPaymentId := st.nextPaymentId + 1 })
        | some p0 =>
          if s.payment_status = "paid" ∧ p0.status ≠ .succeeded then
            let dbRow := p0.mark_as_succeeded now
            ({ dbRow with stripe_checkout_session_id := s.id },
             { st with payments := savePaymentById st.payments dbRow })
          else
            let m := { p0 with stripe_checkout_session_id := s.id,
                               status := PaymentStatus.processing }
            (m, { st with payments := savePaymentById st.payments m })
      if s.payment_status = "paid" ∧ payment.is_successful then
        .ok (enqueueTask st1 (.processPayment payment.id))
      else
        .ok st1
  | _ => .error "AttributeError"

/-- `StripeWebhookView._handle_payment_intent_succeeded`
(`views.py:182-199`): absent record is a swallowed no-op; otherwise
`mark_as_succeeded` (unconditional) and enqueue
`process_successful_payment.delay(payment.id)`. -/
def handlePaymentIntentSucceeded (st : DBState) (now : Int)
    (obj : EventObject) : Except String DBState :=
  match obj with
  | .paymentIntent o =>
    match findPaymentByIntent st.payments o.id with
    | none => .ok st
    | some p =>
      let p' := p.mark_as_succeeded now
      .ok (enqueueTask
        { st with payments := savePaymentById st.payments p' }
        (.processPayment p'.id))
  | _ => .error "AttributeError"

/-- `StripeWebhookView._handle_payment_intent_failed`
(`views.py:201-214`): absent record is a no-op; otherwise
`mark_as_failed` (unconditional). -/
def handlePaymentIntentFailed (st : DBState) (obj : EventObject) :
    Except String DBState :=
  match obj with
  | .paymentIntent o =>
    match findPaymentByIntent st.payments o.id with
    | none => .ok st
    | some p =>
      .ok { st with payments := savePaymentById st.payments p.mark_as_failed }
  | _ => .error "AttributeError"

/-- `StripeWebhookView._handle_charge_refunded` (`views.py:216-231`):
absent record is a no-op; otherwise set status to `refunded`
unconditionally. -/
def handleChargeRefunded (st : DBState) (obj : EventObject) :
    Except String DBState :=
  match obj with
  | .charge c =>
    match findPaymentByIntent st.payments c.payment_intent with
    | none => .ok st
    | some p =>
      let p' := { p with status := PaymentStatus.refunded }
      .ok { st with payments := savePaymentById st.payments p' }
  | _ => .error "AttributeError"

/-- `StripeWebhookView.post` (`views.py:97-137`).  `sigHeader` is the
`Stripe-Signature` header (`none` when absent; Python's `if not
sig_header` also treats the empty string as missing).  `verifiedEvent` is
the result of `construct_webhook_event(payload, sig_header)`.  The event
row is created before the `try`, so a duplicate event id raises out of
the view; inside the `try`, dispatch by event type, then mark the event
processed; any handler exception marks it failed and yields the view's
500 response. -/
def stripeWebhookPost (st : DBState) (now : Int) (sigHeader : Option String)
    (verifiedEvent : Option StripeEvent) : DBState × HttpResp :=
  if sigHeader.getD "" = "" then
    (st, .badRequest "Missing signature")
  else
    match verifiedEvent with
    | none => (st, .badRequest "Invalid signature")
    | some ev =>
      match createWebhookEvent st ev.id ev.type now with
      | .error e => (st, .unhandledError e)
      | .ok st1 =>
        let r : Except String DBState :=
          if ev.type = "checkout.session.completed" then
            handleCheckoutSessionCompleted st1 now ev.data
          else if ev.type = "payment_intent.succeeded" then
            handlePaymentIntentSucceeded st1 now ev.data
          else if ev.type = "payment_intent.payment_failed" then
            handlePaymentIntentFailed st1 ev.data
          else if ev.type = "charge.refunded" then
            handleChargeRefunded st1 ev.data
          else
            .ok st1
        match r with
        | .ok st2 =>
          (markEventProcessed st2 ev.id now, .ok200 "Webhook received")
        | .error e =>
          (markEventFailed st1 ev.id now e,
           .serverError ("Webhook processing failed: " ++ e))

/-- `process_successful_payment` (`tasks.py:19-61`): guard clauses (row
absent returns `None`; not-succeeded returns a message), then
`Subscription.objects.get_or_create(user=user)` with a fresh 30×months
window as defaults; an existing active unexpired subscription has its
end date extended additively, any other existing row is reset from `now`
and reactivated; finally `send_subscription_confirmation_email.delay`. -/
def processSuccessfulPayment (st : DBState) (now : Int) (paymentId : Nat) :
    DBState × Option String :=
  match findPaymentById st.payments paymentId with
  | none => (st, none)
  | some payment =>
    if ¬ payment.is_successful then
      (st, some ("Payment " ++ toString paymentId ++ " is not successful"))
    else
      let uid := payment.userId
      let months := payment.subscription_months
      let st1 :=
        match findSubByUser st.subscriptions uid with
        | none =>
          { st with subscriptions := st.subscriptions ++
              [{ userId := uid, start_date := now,
                 end_date := now + 30 * (months : Int) * 86400,
                 is_active := true }] }
        | some sub =>
          let sub' :=
            if sub.is_active ∧ ¬ sub.is_expired now then
              { sub with end_date :=
                  sub.end_date + 30 * (months : Int) * 86400 }
            else
              { sub with start_date := now,
                         end_date := now + 30 * (months : Int) * 86400,
                         is_active := true }
          { st with subscriptions := saveSubByUser st.subscriptions sub' }
      (enqueueTask st1 (.confirmationEmail uid paymentId),
       some ("Successfully processed payment " ++ toString paymentId))

/-- `cleanup_pending_payments` (`tasks.py:103-116`): count, then delete,
every `Payment` with `status='pending'` and `created_at` strictly before
`now - 24 hours`; the count is also embedded in the returned message. -/
def cleanupPendingPayments (st : DBState) (now : Int) :
    DBState × Nat × String :=
  let cutoff := now - 24 * 3600
  let old := st.payments.filter
    (fun p => decide (p.status = .pending) && decide (p.createdAt < cutoff))
  let count := old.length
  let kept := st.payments.filter
    (fun p => !(decide (p.status = .pending) && decide (p.createdAt < cutoff)))
  ({ st with payments := kept }, count,
   "Cleaned up " ++ toString count ++ " old pending payments")

/-- `has_active_subscription` (`subscribe/utils.py:6-14`): requires an
authenticated user; the query filters on `is_active=True`, and the row
found must not be expired. -/
def hasActiveSubscription (st : DBState) (now : Int) (u : UserRef) : Bool :=
  if ¬ u.is_authenticated then false
  else
    match st.subscriptions.find?
        (fun s => decide (s.userId = u.id) && s.is_active) with
    | none => false
    | some sub => ¬ sub.is_expired now

/-- The `DailyWatchLimit.objects.get_or_create(user=user, date=today,
defaults=...)` idiom shared by `get_daily_watch_limit` and
`update_watch_time`. -/
def getOrCreateLimit (st : DBState) (uid : Nat) (today : Int) :
    DailyWatchLimit × DBState :=
  match findLimitByUserDate st.dailyLimits uid today with
  | some lim => (lim, st)
  | none =>
    let lim : DailyWatchLimit :=
      { userId := uid, date := today, watched_seconds := 0 }
    (lim, { st with dailyLimits := st.dailyLimits ++ [lim] })

/-- `get_daily_watch_limit` (`subscribe/utils.py:17-31`): subscribers get
`(0, -1, True)` (−1 the unlimited sentinel); otherwise lazily create
today's row and report `(watched, remaining, False)`. -/
def getDailyWatchLimit (st : DBState) (now : Int) (u : UserRef) :
    (Nat × Int × Bool) × DBState :=
  if hasActiveSubscription st now u then
    ((0, -1, true), st)
  else
    let (lim, st') := getOrCreateLimit st u.id (dateOf now)
    ((lim.watched_seconds, lim.get_remaining_seconds, false), st')

/-- `can_watch_video` (`subscribe/utils.py:34-46`). -/
def canWatchVideo (st : DBState) (now : Int) (u : UserRef) :
    (Bool × String) × DBState :=
  if ¬ u.is_authenticated then
    ((false, "Please login to watch movies"), st)
  else
    let ((_, remaining, hasSub), st') := getDailyWatchLimit st now u
    if hasSub then
      ((true, ""), st')
    else if remaining ≤ 0 then
      ((false, "Daily watch limit reached. Subscribe to watch unlimited!"),
       st')
    else
      ((true, "You have " ++ toString (remaining / 60) ++
        " minutes remaining today"), st')

/-- `update_watch_time` (`subscribe/utils.py:49-60`): a no-op for
subscribers; otherwise get-or-create today's row and `add_watch_time`
(unclamped additive increment). -/
def updateWatchTime (st : DBState) (now : Int) (u : UserRef)
    (seconds : Nat) : DBState :=
  if hasActiveSubscription st now u then st
  else
    let (lim, st') := getOrCreateLimit st u.id (dateOf now)
    { st' with dailyLimits :=
        saveLimitByUserDate st'.dailyLimits (lim.add_watch_time seconds) }

/-! ## Store lemmas: lookup after save / create -/

/-- A row found under the subscription key, then saved under the same key,
is found again as the saved object. -/
theorem findSubByUser_save (l : List Subscription) (uid : Nat)
    (sub sub' : Subscription) (h : findSubByUser l uid = some sub)
    (h' : sub'.userId = sub.userId) :
    findSubByUser (saveSubByUser l sub') uid = some sub' := by
  have hsub : sub.userId = uid := by
    have h0 := h
    simp only [findSubByUser] at h0
    simpa using List.find?_some h0
  induction l with
  | nil => simp [findSubByUser] at h
  | cons x xs ih =>
    simp only [findSubByUser, saveSubByUser, List.map_cons] at h ih ⊢
    by_cases hx : x.userId = uid
    · rw [if_pos (show x.userId = sub'.userId by rw [hx, h', hsub])]
      exact List.find?_cons_of_pos _ (by simp [h', hsub])
    · rw [List.find?_cons_of_neg _ (by simp [hx])] at h
      by_cases hr : x.userId = sub'.userId
      · rw [if_pos hr]
        exact List.find?_cons_of_pos _ (by simp [h', hsub])
      · rw [if_neg hr, List.find?_cons_of_neg _ (by simp [hx])]
        exact ih h

/-- Creating a subscription row for a user who had none makes it the row
found for that user. -/
theorem findSubByUser_append (l : List Subscription) (uid : Nat)
    (s : Subscription) (h : findSubByUser l uid = none)
    (hs : s.userId = uid) :
    findSubByUser (l ++ [s]) uid = some s := by
  simp only [findSubByUser] at h ⊢
  rw [List.find?_append, h]
  simp [List.find?, hs]

/-- A payment found by its gateway key, then saved by primary key as an
object keeping that gateway key, is found again as the saved object. -/
theorem findPaymentByIntent_save (l : List Payment) (pi : String)
    (p p' : Payment) (h : findPaymentByIntent l pi = some p)
    (hid : p'.id = p.id) (hpi : p'.stripe_payment_intent_id = pi) :
    findPaymentByIntent (savePaymentById l p') pi = some p' := by
  induction l with
  | nil => simp [findPaymentByIntent] at h
  | cons x xs ih =>
    simp only [findPaymentByIntent, savePaymentById, List.map_cons] at h ih ⊢
    by_cases hq : x.stripe_payment_intent_id = pi
    · rw [List.find?_cons_of_pos _ (by simp [hq])] at h
      have hxp : x = p := by simpa using h
      rw [if_pos (show x.id = p'.id by rw [hxp, hid])]
      exact List.find?_cons_of_pos _ (by simp [hpi])
    · rw [List.find?_cons_of_neg _ (by simp [hq])] at h
      by_cases hr : x.id = p'.id
      · rw [if_pos hr]
        exact List.find?_cons_of_pos _ (by simp [hpi])
      · rw [if_neg hr, List.find?_cons_of_neg _ (by simp [hq])]
        exact ih h

/-- A quota row found under (user, date), then saved under the same key,
is found again as the saved object. -/
theorem findLimit_save (l : List DailyWatchLimit) (uid : Nat) (d : Int)
    (w w' : DailyWatchLimit) (h : findLimitByUserDate l uid d = some w)
    (h1 : w'.userId = w.userId) (h2 : w'.date = w.date) :
    findLimitByUserDate (saveLimitByUserDate l w') uid d = some w' := by
  have hw : w.userId = uid ∧ w.date = d := by
    have h0 := h
    simp only [findLimitByUserDate] at h0
    simpa using List.find?_some h0
  induction l with
  | nil => simp [findLimitByUserDate] at h
  | cons x xs ih =>
    simp only [findLimitByUserDate, saveLimitByUserDate, List.map_cons]
      at h ih ⊢
    by_cases hq : x.userId = uid ∧ x.date = d
    · rw [List.find?_cons_of_pos _ (by simp [hq.1, hq.2])] at h
      have hxw : x = w := by simpa using h
      rw [if_pos (show x.userId = w'.userId ∧ x.date = w'.date by
        rw [hxw, h1, h2]; exact ⟨rfl, rfl⟩)]
      exact List.find?_cons_of_pos _ (by simp [h1, h2, hw.1, hw.2])
    · have hq' : ¬ (decide (x.userId = uid) && decide (x.date = d)) = true := by
        simpa using hq
      have hstep :
          List.find? (fun v => decide (v.userId = uid) && decide (v.date = d))
            (x :: xs) =
          List.find? (fun v => decide (v.userId = uid) && decide (v.date = d))
            xs :=
        List.find?_cons_of_neg _ hq'
      rw [hstep] at h
      by_cases hr : x.userId = w'.userId ∧ x.date = w'.date
      · rw [if_pos hr]
        exact List.find?_cons_of_pos _ (by simp [h1, h2, hw.1, hw.2])
      · rw [if_neg hr]
        have hstep2 :
            List.find? (fun v => decide (v.userId = uid) && decide (v.date = d))
              (x :: List.map
                (fun v => if v.userId = w'.userId ∧ v.date = w'.date then w'
                          else v) xs) =
            List.find? (fun v => decide (v.userId = uid) && decide (v.date = d))
              (List.map
                (fun v => if v.userId = w'.userId ∧ v.date = w'.date then w'
                          else v) xs) :=
          List.find?_cons_of_neg _ hq'
        exact hstep2.trans (ih h)

/-- Creating a quota row for a (user, date) that had none makes it the row
found for that key. -/
theorem findLimit_append (l : List DailyWatchLimit) (uid : Nat) (d : Int)
    (w : DailyWatchLimit) (h : findLimitByUserDate l uid d = none)
    (h1 : w.userId = uid) (h2 : w.date = d) :
    findLimitByUserDate (l ++ [w]) uid d = some w := by
  simp only [findLimitByUserDate] at h ⊢
  rw [List.find?_append, h]
  simp [List.find?, h1, h2]

/-- Filtering a list by a predicate and by its negation partitions its
length. -/
theorem length_filter_partition {α} (p : α → Bool) (l : List α) :
    (l.filter p).length + (l.filter (fun a => !(p a))).length = l.length := by
  induction l with
  | nil => simp
  | cons x xs ih =>
    by_cases hx : p x
    · simp [List.filter, hx, ← ih]; omega
    · simp only [Bool.not_eq_true] at hx
      simp [List.filter, hx, ← ih]; omega

/-! ## Concrete fixtures for witnesses and counterexamples -/

/-- The empty database. -/
def emptyState : DBState := ⟨[], [], [], [], [], 0⟩

/-- A pending payment for user 7 under intent `pi_1`. -/
def samplePending : Payment :=
  ⟨0, 7, "pi_1", "", 1200, "USD", .pending, 1, "", 0, none⟩

/-- A succeeded payment for user 7 under intent `pi_1`. -/
def sampleSucceeded : Payment :=
  ⟨0, 7, "pi_1", "cs_1", 1200, "USD", .succeeded, 1, "", 0, some 50⟩

/-! ## C10 -/

/-- C10: the entitlement activation task is guarded: invoked with a
payment id that does not exist it returns `None` with no side effects,
and invoked on a payment whose status is not succeeded it returns a
message with no side effects (no subscription created or mutated, no
notification enqueued). -/
theorem c10_task_guarded (st : DBState) (now : Int) (pid : Nat) :
    (findPaymentById st.payments pid = none →
      processSuccessfulPayment st now pid = (st, none)) ∧
    (∀ p, findPaymentById st.payments pid = some p →
      p.status ≠ .succeeded →
      processSuccessfulPayment st now pid =
        (st, some ("Payment " ++ toString pid ++ " is not successful"))) := by
  constructor
  · intro h
    simp [processSuccessfulPayment, h]
  · intro p hp hs
    simp [processSuccessfulPayment, hp, Payment.is_successful, hs]

/-- C10 witness: the guard clauses at concrete inputs. -/
theorem c10_task_guarded_witness :
    processSuccessfulPayment emptyState 0 5 = (emptyState, none) ∧
    processSuccessfulPayment
        { emptyState with payments := [samplePending] } 0 0 =
      ({ emptyState with payments := [samplePending] },
       some ("Payment " ++ toString 0 ++ " is not successful")) :=
  ⟨(c10_task_guarded emptyState 0 5).1 (by decide),
   (c10_task_guarded { emptyState with payments := [samplePending] } 0 0).2
     samplePending (by decide) (by decide)⟩

/-! ## C9 -/

/-- C9: the stale-pending sweep deletes exactly the payments with status
pending and created_at strictly older than 24 hours and returns their
count: a row is kept iff it does not match, deleted + kept adds up to the
original count, a pending row from 25 hours ago goes, one from 23 hours
ago stays, and rows in any other status stay regardless of age. -/
theorem c9_stale_pending_sweep (st : DBState) (now : Int) :
    (∀ p, p ∈ (cleanupPendingPayments st now).1.payments ↔
      p ∈ st.payments ∧
        ¬ (p.status = .pending ∧ p.createdAt < now - 24 * 3600)) ∧
    ((cleanupPendingPayments st now).2.1 +
      (cleanupPendingPayments st now).1.payments.length =
        st.payments.length) ∧
    (∀ p, p ∈ st.payments → p.status = .pending →
      p.createdAt = now - 25 * 3600 →
      p ∉ (cleanupPendingPayments st now).1.payments) ∧
    (∀ p, p ∈ st.payments → p.status = .pending →
      p.createdAt = now - 23 * 3600 →
      p ∈ (cleanupPendingPayments st now).1.payments) ∧
    (∀ p, p ∈ st.payments → p.status ≠ .pending →
      p ∈ (cleanupPendingPayments st now).1.payments) := by
  have hiff : ∀ p, p ∈ (cleanupPendingPayments st now).1.payments ↔
      p ∈ st.payments ∧
        ¬ (p.status = .pending ∧ p.createdAt < now - 24 * 3600) := by
    intro p
    rw [cleanupPendingPayments]
    simp [List.mem_filter]
    tauto
  refine ⟨hiff, ?_, ?_, ?_, ?_⟩
  · simpa [cleanupPendingPayments] using
      length_filter_partition
        (fun p => decide (p.status = .pending) &&
          decide (p.createdAt < now - 24 * 3600)) st.payments
  · intro p hp hs hc hmem
    exact ((hiff p).mp hmem).2 ⟨hs, by rw [hc]; omega⟩
  · intro p hp hs hc
    exact (hiff p).mpr ⟨hp, fun hcon => absurd hcon.2 (by rw [hc]; omega)⟩
  · intro p hp hs
    exact (hiff p).mpr ⟨hp, fun hcon => hs hcon.1⟩

/-- C9 witness: the sweep at a concrete state, with a 25-hour-old pending
row deleted and a 23-hour-old pending row and an old succeeded row kept. -/
theorem c9_stale_pending_sweep_witness :
    (⟨1, 7, "pi_o", "", 1200, "USD", .pending, 1, "", 100000 - 25 * 3600,
        none⟩ : Payment) ∉
      (cleanupPendingPayments
        { emptyState with payments :=
            [⟨1, 7, "pi_o", "", 1200, "USD", .pending, 1, "",
               100000 - 25 * 3600, none⟩,
             ⟨2, 7, "pi_n", "", 1200, "USD", .pending, 1, "",
               100000 - 23 * 3600, none⟩] } 100000).1.payments ∧
    (⟨2, 7, "pi_n", "", 1200, "USD", .pending, 1, "", 100000 - 23 * 3600,
        none⟩ : Payment) ∈
      (cleanupPendingPayments
        { emptyState with payments :=
            [⟨1, 7, "pi_o", "", 1200, "USD", .pending, 1, "",
               100000 - 25 * 3600, none⟩,
             ⟨2, 7, "pi_n", "", 1200, "USD", .pending, 1, "",
               100000 - 23 * 3600, none⟩] } 100000).1.payments :=
  ⟨(c9_stale_pending_sweep
      { emptyState with payments :=
          [⟨1, 7, "pi_o", "", 1200, "USD", .pending, 1, "",
             100000 - 25 * 3600, none⟩,
           ⟨2, 7, "pi_n", "", 1200, "USD", .pending, 1, "",
             100000 - 23 * 3600, none⟩] } 100000).2.2.1 _
    (by simp) (by decide) (by decide),
   (c9_stale_pending_sweep
      { emptyState with payments :=
          [⟨1, 7, "pi_o", "", 1200, "USD", .pending, 1, "",
             100000 - 25 * 3600, none⟩,
           ⟨2, 7, "pi_n", "", 1200, "USD", .pending, 1, "",
             100000 - 23 * 3600, none⟩] } 100000).2.2.2.1 _
    (by simp) (by decide) (by decide)⟩

/-! ## C7 -/

/-- C7: a webhook request whose signature header is absent (or empty, the
falsy case) or whose verification fails is answered with HTTP 400 and
persists nothing: the state is returned unchanged, so no WebhookEvent row
is created and no PaymentRecord or Subscription is touched. -/
theorem c7_invalid_signature_rejected (st : DBState) (now : Int)
    (sig : Option String) (ev : Option StripeEvent)
    (h : sig = none ∨ sig = some "" ∨ ev = none) :
    (stripeWebhookPost st now sig ev).1 = st ∧
    (stripeWebhookPost st now sig ev).2.isSuccess = false ∧
    (∃ b, (stripeWebhookPost st now sig ev).2 = .badRequest b) := by
  rcases h with h | h | h
  · subst h
    simp [stripeWebhookPost, HttpResp.isSuccess]
  · subst h
    simp [stripeWebhookPost, HttpResp.isSuccess]
  · subst h
    cases sig with
    | none => simp [stripeWebhookPost, HttpResp.isSuccess]
    | some s =>
      by_cases hs : s = ""
      · subst hs
        simp [stripeWebhookPost, HttpResp.isSuccess]
      · simp [stripeWebhookPost, Option.getD, hs, HttpResp.isSuccess]

/-- C7 witness: a missing header and a failed verification at concrete
inputs. -/
theorem c7_invalid_signature_rejected_witness :
    ((stripeWebhookPost emptyState 0 none
        (some ⟨"evt_1", "charge.refunded", .charge ⟨"pi_1"⟩⟩)).1 =
      emptyState ∧
     (stripeWebhookPost emptyState 0 none
        (some ⟨"evt_1", "charge.refunded", .charge ⟨"pi_1"⟩⟩)).2.isSuccess =
      false ∧
     (∃ b, (stripeWebhookPost emptyState 0 none
        (some ⟨"evt_1", "charge.refunded", .charge ⟨"pi_1"⟩⟩)).2 =
          .badRequest b)) ∧
    ((stripeWebhookPost emptyState 0 (some "t=1,v1=bad") none).1 =
      emptyState ∧
     (stripeWebhookPost emptyState 0 (some "t=1,v1=bad") none).2.isSuccess =
      false ∧
     (∃ b, (stripeWebhookPost emptyState 0 (some "t=1,v1=bad") none).2 =
        .badRequest b)) :=
  ⟨c7_invalid_signature_rejected emptyState 0 none
      (some ⟨"evt_1", "charge.refunded", .charge ⟨"pi_1"⟩⟩) (Or.inl rfl),
   c7_invalid_signature_rejected emptyState 0 (some "t=1,v1=bad") none
      (Or.inr (Or.inr rfl))⟩

/-! ## C5 -/

/-- C5: entitlement activation with months=m: a user with no subscription
row gets start=now, end=now+30m days, active; an active unexpired
subscription with end_date=E is extended additively to E+30m days with
start_date and is_active untouched; an inactive or expired one is reset
to start=now, end=now+30m days, active. -/
theorem c5_entitlement_extension (st : DBState) (now : Int) (pid : Nat)
    (p : Payment) (hp : findPaymentById st.payments pid = some p)
    (hs : p.status = .succeeded) :
    (findSubByUser st.subscriptions p.userId = none →
      findSubByUser (processSuccessfulPayment st now pid).1.subscriptions
          p.userId =
        some { userId := p.userId, start_date := now,
               end_date := now + 30 * (p.subscription_months : Int) * 86400,
               is_active := true }) ∧
    (∀ sub, findSubByUser st.subscriptions p.userId = some sub →
      sub.is_active = true → ¬ (now > sub.end_date) →
      findSubByUser (processSuccessfulPayment st now pid).1.subscriptions
          p.userId =
        some { sub with end_date :=
                 sub.end_date + 30 * (p.subscription_months : Int) * 86400 }) ∧
    (∀ sub, findSubByUser st.subscriptions p.userId = some sub →
      sub.is_active = false ∨ now > sub.end_date →
      findSubByUser (processSuccessfulPayment st now pid).1.subscriptions
          p.userId =
        some { sub with start_date := now, end_date := now + 30 * (p.subscription_months : Int) * 86400, is_active := true }) := by
  refine ⟨?_, ?_, ?_⟩
  · intro hnone
    simp only [processSuccessfulPayment, hp, Payment.is_successful, hs,
      decide_True, Bool.not_true, hnone, enqueueTask]
    exact findSubByUser_append _ _ _ hnone rfl
  · intro sub hsub hactive hexp
    simp [processSuccessfulPayment, hp, Payment.is_successful, hs, hsub,
      hactive, Subscription.is_expired, hexp, enqueueTask]
    exact findSubByUser_save _ _ _ _ hsub rfl
  · intro sub hsub hcase
    rcases hcase with hcase | hcase
    · simp [processSuccessfulPayment, hp, Payment.is_successful, hs, hsub,
        hcase, enqueueTask]
      exact findSubByUser_save _ _ _ _ hsub rfl
    · simp [processSuccessfulPayment, hp, Payment.is_successful, hs, hsub,
        Subscription.is_expired, hcase, enqueueTask]
      exact findSubByUser_save _ _ _ _ hsub rfl

/-- C5 witness: activation at concrete inputs for all three cases: fresh
creation, additive extension of an active unexpired subscription, and
reset of an expired one. -/
theorem c5_entitlement_extension_witness :
    (findSubByUser
      (processSuccessfulPayment
        { emptyState with payments := [sampleSucceeded] } 100 0).1.subscriptions
      7 = some ⟨7, 100, 100 + 30 * (1 : Int) * 86400, true⟩) ∧
    (findSubByUser
      (processSuccessfulPayment
        { emptyState with payments := [sampleSucceeded], subscriptions := [⟨7, 0, 500, true⟩] }
        100 0).1.subscriptions
      7 = some ⟨7, 0, 500 + 30 * (1 : Int) * 86400, true⟩) ∧
    (findSubByUser
      (processSuccessfulPayment
        { emptyState with payments := [sampleSucceeded], subscriptions := [⟨7, 0, 50, true⟩] }
        100 0).1.subscriptions
      7 = some ⟨7, 100, 100 + 30 * (1 : Int) * 86400, true⟩) :=
  ⟨(c5_entitlement_extension
      { emptyState with payments := [sampleSucceeded] } 100 0
      sampleSucceeded (by decide) (by decide)).1 (by decide),
   (c5_entitlement_extension
      { emptyState with payments := [sampleSucceeded], subscriptions := [⟨7, 0, 500, true⟩] }
      100 0 sampleSucceeded (by decide) (by decide)).2.1
      ⟨7, 0, 500, true⟩ (by decide) (by decide) (by decide),
   (c5_entitlement_extension
      { emptyState with payments := [sampleSucceeded], subscriptions := [⟨7, 0, 50, true⟩] }
      100 0 sampleSucceeded (by decide) (by decide)).2.2
      ⟨7, 0, 50, true⟩ (by decide) (Or.inr (by decide))⟩

/-! ## C8 -/

/-- C8: recording watch time is a no-op for a user with an active
unexpired subscription; for any other user it adds exactly `s` seconds to
today's row (creating it at `s` when absent), with no clamping at the
3600-second ceiling — the increment itself is never rejected. -/
theorem c8_record_watch_time (st : DBState) (now : Int) (u : UserRef)
    (s : Nat) :
    (hasActiveSubscription st now u = true →
      updateWatchTime st now u s = st) ∧
    (∀ lim, hasActiveSubscription st now u = false →
      findLimitByUserDate st.dailyLimits u.id (dateOf now) = some lim →
      findLimitByUserDate (updateWatchTime st now u s).dailyLimits u.id
          (dateOf now) =
        some { lim with watched_seconds := lim.watched_seconds + s }) ∧
    (hasActiveSubscription st now u = false →
      findLimitByUserDate st.dailyLimits u.id (dateOf now) = none →
      findLimitByUserDate (updateWatchTime st now u s).dailyLimits u.id
          (dateOf now) =
        some { userId := u.id, date := dateOf now, watched_seconds := s }) := by
  refine ⟨?_, ?_, ?_⟩
  · intro h
    simp [updateWatchTime, h]
  · intro lim hns hfind
    simp only [updateWatchTime, hns, Bool.false_eq_true, if_false,
      getOrCreateLimit, hfind]
    exact findLimit_save _ _ _ _ _ hfind rfl rfl
  · intro hns hnone
    simp only [updateWatchTime, hns, Bool.false_eq_true, if_false,
      getOrCreateLimit, hnone]
    have hcreated :
        findLimitByUserDate
          (st.dailyLimits ++ [⟨u.id, dateOf now, 0⟩]) u.id (dateOf now) =
        some ⟨u.id, dateOf now, 0⟩ :=
      findLimit_append _ _ _ _ hnone rfl rfl
    have := findLimit_save
      (st.dailyLimits ++ [⟨u.id, dateOf now, 0⟩]) u.id (dateOf now)
      ⟨u.id, dateOf now, 0⟩
      ((⟨u.id, dateOf now, 0⟩ : DailyWatchLimit).add_watch_time s)
      hcreated rfl rfl
    simpa [DailyWatchLimit.add_watch_time] using this

/-- C8 witness: the no-op for a subscriber, and the unclamped increment
pushing a non-subscriber's row from 3600 to 3700 seconds. -/
theorem c8_record_watch_time_witness :
    (updateWatchTime
      { emptyState with subscriptions := [⟨7, 0, 10000, true⟩] } 100
      ⟨7, true⟩ 100 =
      { emptyState with subscriptions := [⟨7, 0, 10000, true⟩] }) ∧
    (findLimitByUserDate
      (updateWatchTime
        { emptyState with dailyLimits := [⟨7, 0, 3600⟩] } 100
        ⟨7, true⟩ 100).dailyLimits 7 (dateOf 100) =
      some ⟨7, 0, 3700⟩) :=
  ⟨(c8_record_watch_time
      { emptyState with subscriptions := [⟨7, 0, 10000, true⟩] } 100
      ⟨7, true⟩ 100).1 (by decide),
   (c8_record_watch_time
      { emptyState with dailyLimits := [⟨7, 0, 3600⟩] } 100
      ⟨7, true⟩ 100).2.1 ⟨7, 0, 3600⟩ (by decide) (by decide)⟩

/-! ## C6 -/

/-- C6: quota boundary: an authenticated user without an active unexpired
subscription whose row for today shows 3599 watched seconds has
remaining=1 and may watch; at 3600 watched seconds remaining=0 and
watching is denied with the limit-reached message; a user with an active
unexpired subscription may always watch, whatever the quota rows say. -/
theorem c6_quota_boundary (st : DBState) (now : Int) (u : UserRef) :
    (∀ lim, u.is_authenticated = true →
      hasActiveSubscription st now u = false →
      findLimitByUserDate st.dailyLimits u.id (dateOf now) = some lim →
      lim.watched_seconds = 3599 →
      (getDailyWatchLimit st now u).1 = (3599, 1, false) ∧
      (canWatchVideo st now u).1.1 = true) ∧
    (∀ lim, u.is_authenticated = true →
      hasActiveSubscription st now u = false →
      findLimitByUserDate st.dailyLimits u.id (dateOf now) = some lim →
      lim.watched_seconds = 3600 →
      (getDailyWatchLimit st now u).1 = (3600, 0, false) ∧
      (canWatchVideo st now u).1 =
        (false,
         "Daily watch limit reached. Subscribe to watch unlimited!")) ∧
    (hasActiveSubscription st now u = true →
      (canWatchVideo st now u).1 = (true, "")) := by
  refine ⟨?_, ?_, ?_⟩
  · intro lim hauth hns hfind hw
    have hget : getDailyWatchLimit st now u = ((3599, 1, false), st) := by
      simp [getDailyWatchLimit, hns, getOrCreateLimit, hfind,
        DailyWatchLimit.get_remaining_seconds, hw]
    refine ⟨by rw [hget], ?_⟩
    rw [canWatchVideo, hauth]
    simp [hget]
  · intro lim hauth hns hfind hw
    have hget : getDailyWatchLimit st now u = ((3600, 0, false), st) := by
      simp [getDailyWatchLimit, hns, getOrCreateLimit, hfind,
        DailyWatchLimit.get_remaining_seconds, hw]
    refine ⟨by rw [hget], ?_⟩
    rw [canWatchVideo, hauth]
    simp [hget]
  · intro hsub
    have hauth : u.is_authenticated = true := by
      by_contra hna
      rw [hasActiveSubscription] at hsub
      simp [hna] at hsub
    have hget : getDailyWatchLimit st now u = ((0, -1, true), st) := by
      simp [getDailyWatchLimit, hsub]
    rw [canWatchVideo, hauth]
    simp [hget]

/-- C6 witness: the boundary at concrete states: watched=3599 admits with
one second left, watched=3600 denies with the limit message, and a
subscriber with watched=999999 is still admitted. -/
theorem c6_quota_boundary_witness :
    ((getDailyWatchLimit { emptyState with dailyLimits := [⟨7, 0, 3599⟩] }
        100 ⟨7, true⟩).1 = (3599, 1, false) ∧
     (canWatchVideo { emptyState with dailyLimits := [⟨7, 0, 3599⟩] }
        100 ⟨7, true⟩).1.1 = true) ∧
    ((getDailyWatchLimit { emptyState with dailyLimits := [⟨7, 0, 3600⟩] }
        100 ⟨7, true⟩).1 = (3600, 0, false) ∧
     (canWatchVideo { emptyState with dailyLimits := [⟨7, 0, 3600⟩] }
        100 ⟨7, true⟩).1 =
       (false, "Daily watch limit reached. Subscribe to watch unlimited!")) ∧
    ((canWatchVideo
        { emptyState with subscriptions := [⟨7, 0, 10000, true⟩],
                          dailyLimits := [⟨7, 0, 999999⟩] }
        100 ⟨7, true⟩).1 = (true, "")) :=
  ⟨(c6_quota_boundary { emptyState with dailyLimits := [⟨7, 0, 3599⟩] }
      100 ⟨7, true⟩).1 ⟨7, 0, 3599⟩ rfl (by decide) (by decide) rfl,
   (c6_quota_boundary { emptyState with dailyLimits := [⟨7, 0, 3600⟩] }
      100 ⟨7, true⟩).2.1 ⟨7, 0, 3600⟩ rfl (by decide) (by decide) rfl,
   (c6_quota_boundary
      { emptyState with subscriptions := [⟨7, 0, 10000, true⟩],
                        dailyLimits := [⟨7, 0, 999999⟩] }
      100 ⟨7, true⟩).2.2 (by decide)⟩

/-! ## C3 -/

/-- C3 counterexample: `mark_as_succeeded` applied to an
already-succeeded record is not a no-op — a second call at time 20
restamps `completed_at`, so the record does not keep the first call's
timestamp 10, contrary to the claim. -/
theorem c3_restamp_cex :
    ((samplePending.mark_as_succeeded 10).mark_as_succeeded 20).completedAt ≠
      some 10 ∧
    (samplePending.mark_as_succeeded 10).mark_as_succeeded 20 ≠
      samplePending.mark_as_succeeded 10 := by
  decide

/-- C3 (amended): `mark_as_succeeded` has no already-succeeded guard and
is not idempotent: a second call at a different time changes the record,
and after two calls the record carries the second call's `completed_at`
timestamp, not the first. -/
theorem c3_mark_as_succeeded_restamps (p : Payment) (t1 t2 : Int)
    (hne : t1 ≠ t2) :
    (p.mark_as_succeeded t1).status = .succeeded ∧
    ((p.mark_as_succeeded t1).mark_as_succeeded t2).status = .succeeded ∧
    ((p.mark_as_succeeded t1).mark_as_succeeded t2).completedAt = some t2 ∧
    (p.mark_as_succeeded t1).mark_as_succeeded t2 ≠
      p.mark_as_succeeded t1 := by
  refine ⟨rfl, rfl, rfl, ?_⟩
  intro h
  have h2 := congrArg Payment.completedAt h
  simp only [Payment.mark_as_succeeded, Option.some.injEq] at h2
  exact hne h2.symm

/-- C3 witness: the amended behaviour at a concrete record and the
timestamps 10 and 20. -/
theorem c3_mark_as_succeeded_restamps_witness :
    (samplePending.mark_as_succeeded 10).status = .succeeded ∧
    ((samplePending.mark_as_succeeded 10).mark_as_succeeded 20).status =
      .succeeded ∧
    ((samplePending.mark_as_succeeded 10).mark_as_succeeded 20).completedAt =
      some 20 ∧
    (samplePending.mark_as_succeeded 10).mark_as_succeeded 20 ≠
      samplePending.mark_as_succeeded 10 :=
  c3_mark_as_succeeded_restamps samplePending 10 20 (by decide)

/-! ## C1 -/

/-- C1 counterexample: delivering an event whose gateway id `evt_1` is
already in the webhook event log does leave the state unchanged, but the
endpoint does not return success: the unique-constraint violation escapes
as a server error. -/
theorem c1_replay_not_success_cex :
    (stripeWebhookPost
      { emptyState with webhookEvents :=
          [⟨"evt_1", "payment_intent.succeeded", true, "", 0, some 1⟩] }
      100 (some "sig")
      (some ⟨"evt_1", "payment_intent.succeeded",
             .paymentIntent ⟨"pi_1"⟩⟩)).2.isSuccess = false ∧
    (stripeWebhookPost
      { emptyState with webhookEvents :=
          [⟨"evt_1", "payment_intent.succeeded", true, "", 0, some 1⟩] }
      100 (some "sig")
      (some ⟨"evt_1", "payment_intent.succeeded",
             .paymentIntent ⟨"pi_1"⟩⟩)).1 =
      { emptyState with webhookEvents :=
          [⟨"evt_1", "payment_intent.succeeded", true, "", 0, some 1⟩] } := by
  decide

/-- C1 (amended): a replayed delivery whose event id is already in the
webhook event log performs no side effects — the state is unchanged, so
no WebhookEvent row is created and no PaymentRecord or Subscription is
touched — but it is answered with an unhandled `IntegrityError` (an HTTP
500), not success. -/
theorem c1_replay_no_side_effects (st : DBState) (now : Int) (sig : String)
    (ev : StripeEvent) (hsig : sig ≠ "")
    (hdup : (findEventById st.webhookEvents ev.id).isSome = true) :
    stripeWebhookPost st now (some sig) (some ev) =
      (st, .unhandledError "IntegrityError: duplicate stripe_event_id") := by
  simp [stripeWebhookPost, createWebhookEvent, hsig, hdup]

/-- C1 witness: the amended behaviour on a concrete replayed delivery. -/
theorem c1_replay_no_side_effects_witness :
    stripeWebhookPost
      { emptyState with webhookEvents :=
          [⟨"evt_1", "charge.refunded", true, "", 0, some 1⟩] }
      100 (some "sig")
      (some ⟨"evt_1", "charge.refunded", .charge ⟨"pi_1"⟩⟩) =
      ({ emptyState with webhookEvents :=
           [⟨"evt_1", "charge.refunded", true, "", 0, some 1⟩] },
       .unhandledError "IntegrityError: duplicate stripe_event_id") :=
  c1_replay_no_side_effects
    { emptyState with webhookEvents :=
        [⟨"evt_1", "charge.refunded", true, "", 0, some 1⟩] }
    100 "sig" ⟨"evt_1", "charge.refunded", .charge ⟨"pi_1"⟩⟩
    (by decide) (by decide)

/-! ## C4 -/

/-- C4 counterexample: a `payment_intent.payment_failed` delivery moves a
payment that is already `succeeded` to `failed` — so `succeeded` is not
terminal-with-only-refunded-exit as the claim states. -/
theorem c4_succeeded_to_failed_cex :
    sampleSucceeded.status = .succeeded ∧
    ((findPaymentByIntent
      (stripeWebhookPost
        { emptyState with payments := [sampleSucceeded], nextPaymentId := 1 }
        100 (some "sig")
        (some ⟨"evt_9", "payment_intent.payment_failed",
               .paymentIntent ⟨"pi_1"⟩⟩)).1.payments
      "pi_1").map Payment.status = some .failed) := by
  decide

/-- C4 (amended): payment status transitions are unguarded: whatever the
record's current status — including `succeeded` — a
`payment_intent.payment_failed` delivery sets it to `failed`, a
`charge.refunded` delivery sets it to `refunded`, and a
`payment_intent.succeeded` delivery sets it to `succeeded` and restamps
`completed_at`. -/
theorem c4_unguarded_transitions (st : DBState) (now : Int) (pi : String)
    (p : Payment) (h : findPaymentByIntent st.payments pi = some p) :
    (∃ r, handlePaymentIntentFailed st (.paymentIntent ⟨pi⟩) = .ok r ∧
      findPaymentByIntent r.payments pi =
        some { p with status := .failed }) ∧
    (∃ r, handleChargeRefunded st (.charge ⟨pi⟩) = .ok r ∧
      findPaymentByIntent r.payments pi =
        some { p with status := .refunded }) ∧
    (∃ r, handlePaymentIntentSucceeded st now (.paymentIntent ⟨pi⟩) = .ok r ∧
      findPaymentByIntent r.payments pi =
        some { p with status := .succeeded, completedAt := some now }) := by
  have hpi : p.stripe_payment_intent_id = pi := by
    have h0 := h
    simp only [findPaymentByIntent] at h0
    simpa using List.find?_some h0
  refine ⟨?_, ?_, ?_⟩
  · refine ⟨_, by simp only [handlePaymentIntentFailed, h]; rfl, ?_⟩
    exact findPaymentByIntent_save _ _ _ _ h rfl hpi
  · refine ⟨_, by simp only [handleChargeRefunded, h]; rfl, ?_⟩
    exact findPaymentByIntent_save _ _ _ _ h rfl hpi
  · refine ⟨_, by simp only [handlePaymentIntentSucceeded, h]; rfl, ?_⟩
    exact findPaymentByIntent_save _ _ _ _ h rfl hpi

/-- C4 witness: the three unguarded overwrites applied to a concrete
already-succeeded payment. -/
theorem c4_unguarded_transitions_witness :
    (∃ r, handlePaymentIntentFailed
        { emptyState with payments := [sampleSucceeded] }
        (.paymentIntent ⟨"pi_1"⟩) = .ok r ∧
      findPaymentByIntent r.payments "pi_1" =
        some { sampleSucceeded with status := .failed }) ∧
    (∃ r, handleChargeRefunded
        { emptyState with payments := [sampleSucceeded] }
        (.charge ⟨"pi_1"⟩) = .ok r ∧
      findPaymentByIntent r.payments "pi_1" =
        some { sampleSucceeded with status := .refunded }) ∧
    (∃ r, handlePaymentIntentSucceeded
        { emptyState with payments := [sampleSucceeded] } 100
        (.paymentIntent ⟨"pi_1"⟩) = .ok r ∧
      findPaymentByIntent r.payments "pi_1" =
        some { sampleSucceeded with status := .succeeded,
                                    completedAt := some 100 }) :=
  c4_unguarded_transitions { emptyState with payments := [sampleSucceeded] }
    100 "pi_1" sampleSucceeded (by decide)

/-! ## C2 -/

/-- A `checkout.session.completed` event with `payment_status='paid'`
and event id `evt_1`, parameterised over the session fields. -/
def checkoutPaidEvent (sid pi cur : String) (amt : Int)
    (uid months : Nat) : StripeEvent :=
  ⟨"evt_1", "checkout.session.completed",
   .checkoutSession ⟨sid, pi, "paid", amt, cur, some uid, months⟩⟩

/-- A `payment_intent.succeeded` event with event id `evt_2` for the
given payment-intent id. -/
def piSucceededEvent (pi : String) : StripeEvent :=
  ⟨"evt_2", "payment_intent.succeeded", .paymentIntent ⟨pi⟩⟩

/-- Whether a queued task is an entitlement-activation trigger
(`process_successful_payment.delay`). -/
def QueuedTask.isActivation : QueuedTask → Bool
  | .processPayment _ => true
  | _ => false

/-- How many entitlement-activation tasks the state has enqueued. -/
def countActivationTasks (st : DBState) : Nat :=
  (st.taskQueue.filter QueuedTask.isActivation).length

/-- Two consecutive webhook deliveries with a valid signature. -/
def webhookTwice (st : DBState) (tA tB : Int) (eA eB : StripeEvent) :
    DBState :=
  (stripeWebhookPost
    (stripeWebhookPost st tA (some "sig") (some eA)).1
    tB (some "sig") (some eB)).1

/-- C2 counterexample: when the paid `checkout.session.completed` arrives
first and `payment_intent.succeeded` second for the same intent `pi_1`,
the run enqueues the entitlement-activation task twice, not exactly
once as the claim states. -/
theorem c2_double_activation_cex :
    countActivationTasks
      (webhookTwice emptyState 100 200
        (checkoutPaidEvent "cs_1" "pi_1" "usd" 1200 7 1)
        (piSucceededEvent "pi_1")) = 2 := by
  decide

/-- C2 (amended): for both sequential interleavings of one paid
`checkout.session.completed` and one `payment_intent.succeeded` for the
same payment-intent id, starting from a store with no payments and no
logged events, the final PaymentRecord status is `succeeded`; but
entitlement activation is triggered exactly once only in the order
intent-succeeded-then-checkout — in the order checkout-then-intent it is
triggered twice, once by each handler. -/
theorem c2_interleaving_outcomes (sid pi cur : String) (amt : Int)
    (uid months : Nat) (t1 t2 : Int) (n0 : Nat) (subs : List Subscription)
    (limits : List DailyWatchLimit) :
    ((findPaymentByIntent
        (webhookTwice ⟨[], [], subs, limits, [], n0⟩ t1 t2
          (piSucceededEvent pi)
          (checkoutPaidEvent sid pi cur amt uid months)).payments pi).map
        Payment.status = some .succeeded ∧
      countActivationTasks
        (webhookTwice ⟨[], [], subs, limits, [], n0⟩ t1 t2
          (piSucceededEvent pi)
          (checkoutPaidEvent sid pi cur amt uid months)) = 1) ∧
    ((findPaymentByIntent
        (webhookTwice ⟨[], [], subs, limits, [], n0⟩ t1 t2
          (checkoutPaidEvent sid pi cur amt uid months)
          (piSucceededEvent pi)).payments pi).map
        Payment.status = some .succeeded ∧
      countActivationTasks
        (webhookTwice ⟨[], [], subs, limits, [], n0⟩ t1 t2
          (checkoutPaidEvent sid pi cur amt uid months)
          (piSucceededEvent pi)) = 2) := by
  refine ⟨⟨?_, ?_⟩, ⟨?_, ?_⟩⟩ <;>
    simp [webhookTwice, checkoutPaidEvent, piSucceededEvent,
      stripeWebhookPost, createWebhookEvent, findEventById,
      handleCheckoutSessionCompleted, handlePaymentIntentSucceeded,
      findPaymentByIntent, savePaymentById, markEventProcessed,
      enqueueTask, countActivationTasks, QueuedTask.isActivation,
      Payment.is_successful, Payment.mark_as_succeeded, List.find?]
